import Mathlib

/-!
Shallow embedding of the detection-processing pipeline of the mininutriscan
repository, covering:

* `AIService._calculate_health_score`, `AIService._determine_risk_level` and
  `AIService.analyze_nutrition` (app/services/ai_service.py) — the heuristic
  scorer and the analysis adapter;
* `OCRService.extract_nutrition_info` (app/services/ocr_service.py) — the
  nutrient parser (keyword/regex extraction);
* `Detection.update_status` and `Detection.set_ai_analysis`
  (app/models/detection.py) — the record state machine;
* `_process_image_detection` (app/api/detection.py) — the lifecycle
  controller for image ingestion.

Numeric values are modelled as rationals (Python floats at the scales used
here behave exactly); Python `None` becomes `Option`; Python dictionaries
holding nutrient data become association lists.  External I/O (the OCR
provider, the LLM HTTP call) is passed in as an explicit outcome parameter,
everything else is translated from the source.
-/

set_option autoImplicit false

namespace MiniNutriScan

/-- Status enum `DetectionStatus` from app/models/detection.py. -/
inductive DetectionStatus where
  | pending
  | processing
  | completed
  | failed
  | cancelled
deriving DecidableEq, Repr

/-- Risk enum `RiskLevel` from app/models/detection.py: its only members are
`LOW = "low"`, `MEDIUM = "medium"`, `HIGH = "high"`, `UNKNOWN = "unknown"`. -/
inductive RiskLevel where
  | low
  | medium
  | high
  | unknown
deriving DecidableEq, Repr

/-- One value of the Python nutrition-data dictionary, as seen by
`AIService._extract_nutrition_value`: either a raw number, a sub-dictionary
carrying `value`/`unit`/`keyword` (the shape `extract_nutrition_info`
produces), or anything else (which that helper treats as absent). -/
inductive NutrientValue where
  | num (q : ℚ)
  | entry (value : ℚ) (unit : String) (keyword : String)
  | null
deriving DecidableEq, Repr

/-- A Python dict from nutrient key to value, with dict-lookup semantics
(keys are unique; lookup returns the first binding). -/
abbrev NutritionData := List (String × NutrientValue)

/-- `key in nutrition_data` / `nutrition_data[key]` lookup. -/
def lookupKey : NutritionData → String → Option NutrientValue
  | [], _ => none
  | (k, v) :: rest, key => if k = key then some v else lookupKey rest key

/-- `AIService._extract_nutrition_value` (ai_service.py): a dict value with a
`value` field or a bare number yields a float, anything else yields `None`. -/
def extractNutritionValue (nd : NutritionData) (key : String) : Option ℚ :=
  match lookupKey nd key with
  | some (NutrientValue.num q) => some q
  | some (NutrientValue.entry v _ _) => some v
  | some NutrientValue.null => none
  | none => none

/-- Python truthiness of an `Optional[float]`: `None` and `0.0` are falsy. -/
def truthyOpt : Option ℚ → Bool
  | none => false
  | some q => decide (q ≠ 0)

/-- The numerator (in tenths) of Python `round(x, 1)`: the integer nearest
to `10 * x`, ties to even. -/
def pyRound1Int (q : ℚ) : ℤ :=
  if Int.fract (q * 10) < 1 / 2 then Int.floor (q * 10)
  else if 1 / 2 < Int.fract (q * 10) then Int.floor (q * 10) + 1
  else if Int.floor (q * 10) % 2 = 0 then Int.floor (q * 10)
  else Int.floor (q * 10) + 1

/-- Python `round(x, 1)` (round to one decimal place, ties to even).  The
scorer only ever applies it to integer-valued scores, where it is the
identity. -/
def pyRound1 (q : ℚ) : ℚ := (pyRound1Int q : ℚ) / 10

/-- The `if energy:` block of `_calculate_health_score`: `< 1000` adds 5,
`> 2500` subtracts 10 (Python truthiness: `None` and `0.0` skip the
block). -/
def energyAdjusted (score : ℚ) (energy : Option ℚ) : ℚ :=
  if truthyOpt energy then
    let e := energy.getD 0
    if e < 1000 then score + 5 else if e > 2500 then score - 10 else score
  else score

/-- The `if protein:` block of `_calculate_health_score`: `>= 10` adds 10,
`>= 5` adds 5. -/
def proteinAdjusted (score : ℚ) (protein : Option ℚ) : ℚ :=
  if truthyOpt protein then
    let p := protein.getD 0
    if p ≥ 10 then score + 10 else if p ≥ 5 then score + 5 else score
  else score

/-- The `if fat:` block of `_calculate_health_score`: `> 20` subtracts 15,
`> 10` subtracts 5, `< 3` adds 5. -/
def fatAdjusted (score : ℚ) (fat : Option ℚ) : ℚ :=
  if truthyOpt fat then
    let f := fat.getD 0
    if f > 20 then score - 15
    else if f > 10 then score - 5
    else if f < 3 then score + 5
    else score
  else score

/-- The `if sodium:` block of `_calculate_health_score`: `> 600` subtracts
15, `> 300` subtracts 5, `< 100` adds 5. -/
def sodiumAdjusted (score : ℚ) (sodium : Option ℚ) : ℚ :=
  if truthyOpt sodium then
    let s := sodium.getD 0
    if s > 600 then score - 15
    else if s > 300 then score - 5
    else if s < 100 then score + 5
    else score
  else score

/-- `AIService._calculate_health_score` (ai_service.py): base 70.0, then the
energy, protein, fat and sodium adjustment blocks in source order, clamp to
[0, 100] by `max(0, min(100, score))`, and `round(score, 1)`.
`carbohydrate` is extracted by the source but never used.  The `except`
branch (returning 60.0) is unreachable on well-typed nutrient data and is
not modelled. -/
def calculateHealthScore (nd : NutritionData) : ℚ :=
  let energy := extractNutritionValue nd "energy"
  let protein := extractNutritionValue nd "protein"
  let fat := extractNutritionValue nd "fat"
  let sodium := extractNutritionValue nd "sodium"
  let score :=
    sodiumAdjusted (fatAdjusted (proteinAdjusted (energyAdjusted 70 energy)
      protein) fat) sodium
  pyRound1 (max 0 (min 100 score))

/-- `AIService._determine_risk_level` (ai_service.py): fixed thresholds on
the health score, returning the upper-case label strings. -/
def determineRiskLevel (healthScore : ℚ) : String :=
  if healthScore ≥ 80 then "LOW"
  else if healthScore ≥ 60 then "MEDIUM"
  else if healthScore ≥ 40 then "HIGH"
  else "VERY_HIGH"

/-- Outcome of the external LLM HTTP call made by `AIService._make_request`,
as observed by `analyze_nutrition`: a response whose `output.text` field is
present, a response missing that field (the source raises and catches
`"API响应格式异常"`), or an exception escaping `_make_request`. -/
inductive ProviderResponse where
  | outputText (text : String)
  | malformed
  | raised (msg : String)
deriving DecidableEq, Repr

/-- The dictionary returned by `AIService.analyze_nutrition`, restricted to
the fields the pipeline reads (`success`, `health_score`, `risk_level`,
`error`); the narrative `analysis`/`advice`/`timestamp` fields are not read
by any property considered here and are not modelled. -/
structure AiResult where
  success : Bool
  healthScore : Option ℚ
  riskLevel : Option String
  error : Option String
deriving DecidableEq, Repr

/-- `AIService.analyze_nutrition` (ai_service.py): on a well-formed provider
response it returns `success=True` with the heuristic score and its derived
risk label; on a malformed response or an exception it returns
`success=False` with the error text and no score. -/
def analyzeNutrition (resp : ProviderResponse) (nd : NutritionData) : AiResult :=
  match resp with
  | ProviderResponse.outputText _ =>
      { success := true
        healthScore := some (calculateHealthScore nd)
        riskLevel := some (determineRiskLevel (calculateHealthScore nd))
        error := none }
  | ProviderResponse.malformed =>
      { success := false, healthScore := none, riskLevel := none
        error := some "API响应格式异常" }
  | ProviderResponse.raised m =>
      { success := false, healthScore := none, riskLevel := none
        error := some m }

/-- Outcome of the `ai_service.analyze_nutrition(...)` call as made by
`_process_image_detection`.  `analyze_nutrition` itself never raises, but
the call site passes `product_info`/`user_profile` keyword arguments that
the method signature does not accept, so at runtime the call raises
`TypeError`; `raised` covers that case, `returned` covers the value the
method would produce. -/
inductive AiCallOutcome where
  | raised (msg : String)
  | returned (r : AiResult)
deriving DecidableEq, Repr

/-- The `TypeError` message produced by the extra keyword arguments at the
`analyze_nutrition` call sites in app/api/detection.py. -/
def aiCallTypeErrorMsg : String :=
  "analyze_nutrition() got an unexpected keyword argument \x27product_info\x27"

/-- The detection record, restricted to the columns the pipeline writes and
the properties read: owner, status, OCR text/confidence, nutrient payload,
AI analysis fields, error message, completion timestamp (as a flag).
Defaults mirror the column defaults in app/models/detection.py
(`risk_level` defaults to `UNKNOWN`, everything else to NULL/absent). -/
structure Detection where
  userId : Option Nat
  status : DetectionStatus
  rawText : Option String
  ocrConfidence : Option ℚ
  nutritionPayload : Option NutritionData
  aiAnalysisSet : Bool
  nutritionScore : Option ℚ
  riskLevel : RiskLevel
  errorMessage : Option String
  completedAt : Bool
deriving DecidableEq, Repr

/-- The record as created by `_process_image_detection`:
`Detection(user_id=current_user.id if current_user else None,
detection_type=OCR_SCAN, status=PROCESSING, image_url=...)`. -/
def newDetection (userId : Option Nat) : Detection :=
  { userId := userId
    status := DetectionStatus.processing
    rawText := none
    ocrConfidence := none
    nutritionPayload := none
    aiAnalysisSet := false
    nutritionScore := none
    riskLevel := RiskLevel.unknown
    errorMessage := none
    completedAt := false }

/-- Python truthiness of an `Optional[str]`: `None` and `""` are falsy. -/
def truthyStr : Option String → Bool
  | none => false
  | some s => decide (s ≠ "")

/-- `Detection.update_status` (app/models/detection.py): always overwrites
the status; stamps `completed_at` when completing; records the error message
only when the new status is FAILED and the message is truthy. -/
def updateStatus (d : Detection) (s : DetectionStatus) (err : Option String) :
    Detection :=
  let d := { d with status := s }
  if s = DetectionStatus.completed then { d with completedAt := true }
  else if s = DetectionStatus.failed ∧ truthyStr err then
    { d with errorMessage := err }
  else d

/-- `RiskLevel(value)` enum construction by value: succeeds exactly on the
four lower-case member values. -/
def riskLevelOfValue (s : String) : Option RiskLevel :=
  if s = "low" then some RiskLevel.low
  else if s = "medium" then some RiskLevel.medium
  else if s = "high" then some RiskLevel.high
  else if s = "unknown" then some RiskLevel.unknown
  else none

/-- `Detection.set_ai_analysis` (app/models/detection.py), restricted to the
score and risk-level fields (`advice`/`analysis_data` only feed columns no
property here reads): stores the score, and stores
`RiskLevel(risk_level)` when the string is truthy and a valid member value,
`UNKNOWN` otherwise (the `except ValueError` branch and the falsy branch). -/
def setAiAnalysis (d : Detection) (score : Option ℚ) (riskLevel : Option String) :
    Detection :=
  let rl :=
    if truthyStr riskLevel then
      match riskLevel with
      | some s =>
          match riskLevelOfValue s with
          | some r => r
          | none => RiskLevel.unknown
      | none => RiskLevel.unknown
    else RiskLevel.unknown
  { d with aiAnalysisSet := true, nutritionScore := score, riskLevel := rl }

/-- Result of `OCRService.recognize_nutrition_label`: either a provider
success dictionary (whose keys are exactly `success`, `provider`, `text`,
`confidence`, `texts`, `raw_result` — see `_tencent_ocr`/`_alibaba_ocr`), or
one of the `success=False` dictionaries.  `tokens` is the list of per-token
texts from the `texts` entry; the providers compute the `text` field as the
space-join of `tokens`. -/
inductive OcrOutcome where
  | ok (text : String) (tokens : List String) (confidence : ℚ)
  | err (error : String)
deriving DecidableEq, Repr

/-- What `_process_image_detection` hands back to FastAPI: either the
response built from the record (`httpError = none`), or a raised
`HTTPException` with its status code and detail.  `aiCalledWith` records the
nutrient mapping passed to `analyze_nutrition`, `none` when the call was
never reached. -/
structure PipelineResult where
  detection : Detection
  httpError : Option (Nat × String)
  aiCalledWith : Option NutritionData
deriving DecidableEq, Repr

/-- Detail string of the HTTPException raised on OCR failure. -/
def detailOcrFail : String := "图片识别失败，请确保图片清晰且包含营养标签"

/-- `str(e)` of an `AttributeError` from evaluating `current_user.age` when
`current_user` is `None`. -/
def msgNoneAttr : String :=
  "\x27NoneType\x27 object has no attribute \x27age\x27"

/-- `_process_image_detection` (app/api/detection.py, the code after the
record is created and committed), as a function of the owner, the OCR
outcome and the outcome of the one `analyze_nutrition` call.

Control flow translated from the source:
* OCR not successful: `update_status(FAILED, "OCR识别失败")`, then
  `HTTPException(400, ...)` is raised; the inner `except Exception` catches
  it, calls `update_status(FAILED, str(e))` (with
  `str(e) = "400: <detail>"`) and re-raises; the outer `except
  HTTPException` re-raises it to the caller.
* OCR successful: `raw_text`/`ocr_confidence` are copied from the result;
  `nutrition_data = ocr_result.get("nutrition_data", {})` — the provider
  success dictionaries carry no such key, so this is always the empty
  mapping and the falsy check skips `set_nutrition_data`;
  `extract_nutrition_info` is never invoked.
* Anonymous owner: building the `user_profile` argument evaluates
  `current_user.age` on `None`, raising `AttributeError` before the AI call;
  the inner handler marks the record FAILED with that message and re-raises,
  and the outer `except Exception` wraps it in `HTTPException(500, ...)`.
* Otherwise the `analyze_nutrition` call is made: if it raises, the handlers
  behave as above; if it returns, `set_ai_analysis` runs only when
  `success` is truthy, and the record is completed either way and returned
  (`increment_scan_count` succeeds for a present user).

The `returned` branch transcribes detection.py lines 339-350 as written;
at the actual call site the call never returns — the extra keyword
arguments raise `TypeError` unconditionally (see `aiCallSiteOutcome`), so
only the `raised` outcome is realizable there. -/
def processImageDetection (user : Option Nat) (ocr : OcrOutcome)
    (aiCall : AiCallOutcome) : PipelineResult :=
  let d0 := newDetection user
  match ocr with
  | OcrOutcome.err _ =>
      let d1 := updateStatus d0 DetectionStatus.failed (some "OCR识别失败")
      let d2 := updateStatus d1 DetectionStatus.failed
        (some ("400: " ++ detailOcrFail))
      { detection := d2, httpError := some (400, detailOcrFail)
        aiCalledWith := none }
  | OcrOutcome.ok text _tokens conf =>
      let d1 := { d0 with rawText := some text, ocrConfidence := some conf }
      let nutritionData : NutritionData := []
      let d2 :=
        if nutritionData ≠ [] then { d1 with nutritionPayload := some nutritionData }
        else d1
      match user with
      | none =>
          let d3 := updateStatus d2 DetectionStatus.failed (some msgNoneAttr)
          { detection := d3
            httpError := some (500, "检测过程中发生错误: " ++ msgNoneAttr)
            aiCalledWith := none }
      | some _ =>
          match aiCall with
          | AiCallOutcome.raised m =>
              let d3 := updateStatus d2 DetectionStatus.failed (some m)
              { detection := d3
                httpError := some (500, "检测过程中发生错误: " ++ m)
                aiCalledWith := some nutritionData }
          | AiCallOutcome.returned r =>
              let d3 :=
                if r.success then setAiAnalysis d2 r.healthScore r.riskLevel
                else d2
              let d4 := updateStatus d3 DetectionStatus.completed none
              { detection := d4, httpError := none
                aiCalledWith := some nutritionData }

/-- Outcome of the `ai_service.analyze_nutrition(nutrition_data=...,
product_info=..., user_profile=...)` call as `_process_image_detection`
actually makes it: `AIService.analyze_nutrition` has signature
`(self, nutrition_data)`, so the extra keyword arguments raise `TypeError`
when the call is invoked — before the method body, and hence the provider,
is ever reached — whatever the provider would have answered. -/
def aiCallSiteOutcome (_resp : ProviderResponse) : AiCallOutcome :=
  AiCallOutcome.raised aiCallTypeErrorMsg

/-- The image pipeline with its adapter call bound to the actual call-site
behaviour `aiCallSiteOutcome`: the set of runs the source can actually
execute, indexed by the owner, the OCR outcome and the (never-consulted)
provider behaviour. -/
def processImageDetectionActual (user : Option Nat) (ocr : OcrOutcome)
    (resp : ProviderResponse) : PipelineResult :=
  processImageDetection user ocr (aiCallSiteOutcome resp)

/-- Membership of the character class `[：:]` in the extraction pattern. -/
def isColonChar (c : Char) : Bool := c == '：' || c == ':'

/-- Membership of `\s` (modelled by its ASCII part; the texts considered
here contain no other whitespace). -/
def isSpaceChar (c : Char) : Bool :=
  c == ' ' || c == '\t' || c == '\n' || c == '\r' || c == '\x0b' || c == '\x0c'

/-- Membership of `\d`. -/
def isDigitChar (c : Char) : Bool := '0' ≤ c && c ≤ '9'

/-- Membership of `[a-zA-Z]`. -/
def isAsciiLetterChar (c : Char) : Bool :=
  ('a' ≤ c && c ≤ 'z') || ('A' ≤ c && c ≤ 'Z')

/-- Numeric value of a digit string. -/
def digitsToNat (ds : List Char) : Nat :=
  ds.foldl (fun acc c => acc * 10 + (c.toNat - 48)) 0

/-- `float(value)` on a matched decimal literal with integer part `ds` and
fractional part `fs` (absent fractional part contributes nothing). -/
def decimalToRat (ds fs : List Char) : ℚ :=
  if fs = [] then (digitsToNat ds : ℚ)
  else (digitsToNat ds : ℚ) + (digitsToNat fs : ℚ) / ((10 : ℚ) ^ fs.length)

/-- The tail of the extraction pattern
`[：:]*\s*(\d+(?:\.\d+)?)\s*([a-zA-Z]+)?` applied at a position, returning
the captured number and unit (the unit capture is `""` when the optional
group does not participate).  Each quantified class is disjoint from what
follows it, so greedy matching needs no backtracking beyond the optional
decimal group. -/
def matchAfter (s : List Char) : Option (ℚ × String) :=
  let s1 := s.dropWhile isColonChar
  let s2 := s1.dropWhile isSpaceChar
  let ds := s2.takeWhile isDigitChar
  if ds = [] then none
  else
    let s3 := s2.dropWhile isDigitChar
    let fracRest : List Char × List Char :=
      match s3 with
      | c :: rest =>
          if c = '.' then
            let fs := rest.takeWhile isDigitChar
            if fs = [] then ([], s3) else (fs, rest.dropWhile isDigitChar)
          else ([], s3)
      | [] => ([], s3)
    let s4 := fracRest.2.dropWhile isSpaceChar
    let us := s4.takeWhile isAsciiLetterChar
    some (decimalToRat ds fracRest.1, String.mk us)

/-- Literal-keyword test: does `kw` start the string `s`? -/
def isStart : List Char → List Char → Bool
  | [], _ => true
  | _ :: _, [] => false
  | k :: ks, c :: cs => k == c && isStart ks cs

/-- Attempt the full pattern `kw[：:]*\s*(\d+(?:\.\d+)?)\s*([a-zA-Z]+)?` at
the start of `s`. -/
def tryMatch (kw s : List Char) : Option (ℚ × String) :=
  if isStart kw s then matchAfter (s.drop kw.length) else none

/-- `re.findall(pattern, all_text)` followed by `matches[0]`: the leftmost
position where the pattern matches, scanning left to right (the keywords are
all non-empty, so no match is possible at the end-of-string position). -/
def findFirstMatch (kw : List Char) : List Char → Option (ℚ × String)
  | [] => none
  | c :: rest =>
      match tryMatch kw (c :: rest) with
      | some r => some r
      | none => findFirstMatch kw rest

/-- The `nutrition_keywords` table of `extract_nutrition_info`
(ocr_service.py), in source order. -/
def nutritionKeywordTable : List (String × List (List Char)) :=
  [("energy", [String.toList "能量", String.toList "热量", String.toList "卡路里",
               String.toList "千焦", String.toList "kJ", String.toList "kcal"]),
   ("protein", [String.toList "蛋白质", String.toList "蛋白"]),
   ("fat", [String.toList "脂肪", String.toList "总脂肪"]),
   ("carbohydrate", [String.toList "碳水化合物", String.toList "糖类"]),
   ("sodium", [String.toList "钠", String.toList "盐"]),
   ("sugar", [String.toList "糖", String.toList "添加糖"])]

/-- Every keyword of the table, flattened. -/
def allKeywords : List (List Char) := (nutritionKeywordTable.map Prod.snd).flatten

/-- The inner `for keyword in keywords` loop with its `break`: the first
keyword (in declaration order) whose pattern matches somewhere in the text
wins. -/
def firstKeywordHit : List (List Char) → List Char → Option (List Char × ℚ × String)
  | [], _ => none
  | kw :: kws, text =>
      match findFirstMatch kw text with
      | some (v, u) => some (kw, v, u)
      | none => firstKeywordHit kws text

/-- `OCRService.extract_nutrition_info`, success path, on the joined text:
for each nutrient of the table in order, record
`{"value": float(value), "unit": unit or "g", "keyword": keyword}` from the
first matching keyword, omitting nutrients with no match. -/
def extractNutritionCore (text : List Char) : NutritionData :=
  nutritionKeywordTable.foldl
    (fun acc p =>
      match firstKeywordHit p.2 text with
      | some (kw, v, u) =>
          acc ++ [(p.1, NutrientValue.entry v (if u = "" then "g" else u)
                          (String.mk kw))]
      | none => acc)
    []

/-- `" ".join(item["text"] for item in texts)`. -/
def joinTokens : List String → List Char
  | [] => []
  | [t] => t.toList
  | t :: rest => t.toList ++ ' ' :: joinTokens rest

/-- `OCRService.extract_nutrition_info` (ocr_service.py): `None` models the
`success=False` dictionaries (failed OCR input), `some` the extracted
mapping from the joined token texts.  The `except` branch cannot fire on
well-typed input. -/
def extractNutritionInfo (ocr : OcrOutcome) : Option NutritionData :=
  match ocr with
  | OcrOutcome.err _ => none
  | OcrOutcome.ok _ tokens _ => some (extractNutritionCore (joinTokens tokens))

/-- Substring occurrence test: does `kw` start at some position of the
text?  (`containsSub kw t = false` states that the text never mentions the
keyword.) -/
def containsSub (kw : List Char) : List Char → Bool
  | [] => isStart kw []
  | c :: rest => isStart kw (c :: rest) || containsSub kw rest

/-- True when the list does not begin with an ASCII letter (so a following
context cannot extend a just-matched `[a-zA-Z]+` unit token). -/
def headNotLetter : List Char → Bool
  | [] => true
  | c :: _ => !(isAsciiLetterChar c)

/-- The character sequence `钠: 800mg`. -/
def sodiumMention : List Char := ['钠', ':', ' ', '8', '0', '0', 'm', 'g']

/-- The nutrient mapping named by the spec example:
`{sodium: 800mg, fat: 25g, protein: 12g, energy: 2100kJ}`. -/
def specExampleMapping : NutritionData :=
  [("sodium", NutrientValue.entry 800 "mg" "钠"),
   ("fat", NutrientValue.entry 25 "g" "脂肪"),
   ("protein", NutrientValue.entry 12 "g" "蛋白质"),
   ("energy", NutrientValue.entry 2100 "kJ" "能量")]

/-- A concrete authenticated run with successful OCR and an unreachable
provider — the configuration in which the Analysis Adapter would report
`success=False` — executed with the adapter call's actual call-site
behaviour. -/
def adapterDownRun : PipelineResult :=
  processImageDetectionActual (some 1)
    (OcrOutcome.ok "钠: 800mg" ["钠: 800mg"] (95 / 100))
    (ProviderResponse.raised "API请求失败: connection error")

/-- A concrete run whose OCR reports failure. -/
def ocrFailRun : PipelineResult :=
  processImageDetection (some 3) (OcrOutcome.err "没有可用的OCR服务")
    (AiCallOutcome.returned (analyzeNutrition ProviderResponse.malformed []))

/-- The OCR outcome of a successful scan of a label naming sodium and fat. -/
def sodiumFatOcr : OcrOutcome :=
  OcrOutcome.ok "钠: 800mg 脂肪: 25g" ["钠: 800mg", "脂肪: 25g"] (9 / 10)

/-- A concrete authenticated run over `sodiumFatOcr` with a well-formed
provider response. -/
def sodiumFatRun : PipelineResult :=
  processImageDetection (some 4) sodiumFatOcr
    (AiCallOutcome.returned (analyzeNutrition
      (ProviderResponse.outputText "营养分析结果") []))

/-- A concrete anonymous run: OCR succeeds, and the call site then raises
the keyword-argument `TypeError` only if it is reached at all. -/
def anonymousRun : PipelineResult :=
  processImageDetection none (OcrOutcome.ok "蛋白质 12g" ["蛋白质 12g"] (4 / 5))
    (AiCallOutcome.raised aiCallTypeErrorMsg)

/-- The same run as `anonymousRun` but with an authenticated owner. -/
def authenticatedRun : PipelineResult :=
  processImageDetection (some 7) (OcrOutcome.ok "蛋白质 12g" ["蛋白质 12g"] (4 / 5))
    (AiCallOutcome.raised aiCallTypeErrorMsg)

/-! ### Helper lemmas -/

/-- Rounding to one decimal place keeps a value of `[0, 100]` inside
`[0, 100]`. -/
theorem pyRound1_mem_Icc (q : ℚ) (h0 : 0 ≤ q) (h1 : q ≤ 100) :
    0 ≤ pyRound1 q ∧ pyRound1 q ≤ 100 := by
  have ht0 : (0 : ℚ) ≤ q * 10 := by linarith
  have ht1 : q * 10 ≤ 1000 := by linarith
  have hf0 : (0 : ℤ) ≤ Int.floor (q * 10) := by
    exact_mod_cast Int.le_floor.mpr (by exact_mod_cast ht0)
  have hfle : ((Int.floor (q * 10) : ℤ) : ℚ) ≤ q * 10 := Int.floor_le _
  have hf1000 : (Int.floor (q * 10) : ℤ) ≤ 1000 := by
    have : ((Int.floor (q * 10) : ℤ) : ℚ) ≤ 1000 := le_trans hfle ht1
    exact_mod_cast this
  have hr : (0 : ℤ) ≤ pyRound1Int q ∧ pyRound1Int q ≤ 1000 := by
    unfold pyRound1Int
    split_ifs with hlt hgt hev
    · exact ⟨hf0, hf1000⟩
    · refine ⟨by omega, ?_⟩
      have hfrac : Int.fract (q * 10) = q * 10 - Int.floor (q * 10) :=
        (Int.self_sub_floor (q * 10)).symm
      have hlt1000 : ((Int.floor (q * 10) : ℤ) : ℚ) < 1000 := by
        rw [hfrac] at hgt; linarith
      have : (Int.floor (q * 10) : ℤ) < 1000 := by exact_mod_cast hlt1000
      omega
    · exact ⟨hf0, hf1000⟩
    · refine ⟨by omega, ?_⟩
      have hfrac : Int.fract (q * 10) = q * 10 - Int.floor (q * 10) :=
        (Int.self_sub_floor (q * 10)).symm
      have heq : Int.fract (q * 10) = 1 / 2 := le_antisymm (not_lt.mp hgt) (not_lt.mp hlt)
      have : ((Int.floor (q * 10) : ℤ) : ℚ) = q * 10 - 1 / 2 := by
        rw [hfrac] at heq; linarith
      have : ((Int.floor (q * 10) : ℤ) : ℚ) < 1000 := by rw [this]; linarith
      have : (Int.floor (q * 10) : ℤ) < 1000 := by exact_mod_cast this
      omega
  constructor
  · unfold pyRound1
    have : (0 : ℚ) ≤ (pyRound1Int q : ℚ) := by exact_mod_cast hr.1
    linarith
  · unfold pyRound1
    have : (pyRound1Int q : ℚ) ≤ 1000 := by exact_mod_cast hr.2
    linarith

/-- Evaluation of the Heuristic Scorer on the spec's example mapping. -/
theorem score_specExample_eq : calculateHealthScore specExampleMapping = 50 := by
  have he : extractNutritionValue specExampleMapping "energy" = some 2100 := rfl
  have hp : extractNutritionValue specExampleMapping "protein" = some 12 := rfl
  have hf : extractNutritionValue specExampleMapping "fat" = some 25 := rfl
  have hs : extractNutritionValue specExampleMapping "sodium" = some 800 := rfl
  have h1 : energyAdjusted 70 (some 2100) = 70 := by
    norm_num [energyAdjusted, truthyOpt]
  have h2 : proteinAdjusted 70 (some 12) = 80 := by
    norm_num [proteinAdjusted, truthyOpt]
  have h3 : fatAdjusted 80 (some 25) = 65 := by norm_num [fatAdjusted, truthyOpt]
  have h4 : sodiumAdjusted 65 (some 800) = 50 := by
    norm_num [sodiumAdjusted, truthyOpt]
  have h5 : pyRound1 (max 0 (min 100 (50 : ℚ))) = 50 := by
    norm_num [pyRound1, pyRound1Int, Int.fract]
  simp only [calculateHealthScore, he, hp, hf, hs, h1, h2, h3, h4, h5]

/-- Evaluation of the Heuristic Scorer on the empty nutrient mapping. -/
theorem score_empty_eq : calculateHealthScore [] = 70 := by
  have h1 : energyAdjusted 70 none = 70 := by norm_num [energyAdjusted, truthyOpt]
  have h2 : proteinAdjusted 70 none = 70 := by
    norm_num [proteinAdjusted, truthyOpt]
  have h3 : fatAdjusted 70 none = 70 := by norm_num [fatAdjusted, truthyOpt]
  have h4 : sodiumAdjusted 70 none = 70 := by norm_num [sodiumAdjusted, truthyOpt]
  have h5 : pyRound1 (max 0 (min 100 (70 : ℚ))) = 70 := by
    norm_num [pyRound1, pyRound1Int, Int.fract]
  simp only [calculateHealthScore, extractNutritionValue, lookupKey, h1, h2, h3,
    h4, h5]

/-! ### Claim theorems -/

/-- Claim C7: for every nutrient mapping (any numeric values, any subset of
nutrient keys present or absent), the score returned by the Heuristic Scorer
(`_calculate_health_score`) lies within [0, 100]. -/
theorem heuristic_score_in_range (nd : NutritionData) :
    0 ≤ calculateHealthScore nd ∧ calculateHealthScore nd ≤ 100 := by
  unfold calculateHealthScore
  exact pyRound1_mem_Icc _ (le_max_left _ _)
    (max_le (by norm_num) (min_le_left _ _))

/-- Claim C5 counterexample: on the spec's example mapping
`{sodium: 800mg, fat: 25g, protein: 12g, energy: 2100kJ}` the Heuristic
Scorer computes 50.0, not 40.0 — energy 2100 kJ is not above the 2500 kJ
threshold, so the −10 adjustment the claim applies does not fire. -/
theorem spec_example_score_not_forty :
    calculateHealthScore specExampleMapping ≠ 40 := by
  rw [score_specExample_eq]; norm_num

/-- Claim C5 (amended): on the mapping
`{sodium: 800mg, fat: 25g, protein: 12g, energy: 2100kJ}` the Heuristic
Scorer computes 70 − 15 (sodium > 600) − 15 (fat > 20) + 10 (protein ≥ 10)
+ 0 (energy 2100 is neither < 1000 nor > 2500) = 50.0, and classifies the
score in the 40–59 band, i.e. risk `HIGH`. -/
theorem spec_example_score_fifty_high :
    calculateHealthScore specExampleMapping = 50 ∧
    determineRiskLevel (calculateHealthScore specExampleMapping) = "HIGH" := by
  rw [score_specExample_eq]
  exact ⟨rfl, rfl⟩

/-- Claim C6 counterexample: on the empty nutrient mapping the Heuristic
Scorer keeps the default score 70.0 and classifies it by the ordinary
thresholds: the risk label is `MEDIUM`, not `unknown` — the scorer has no
empty-mapping special case at all. -/
theorem empty_mapping_risk_not_unknown :
    calculateHealthScore [] = 70 ∧
    determineRiskLevel (calculateHealthScore []) = "MEDIUM" ∧
    determineRiskLevel (calculateHealthScore []) ≠ "unknown" ∧
    determineRiskLevel (calculateHealthScore []) ≠ "UNKNOWN" := by
  rw [score_empty_eq]
  refine ⟨rfl, rfl, by decide, by decide⟩

/-- Claim C6 (amended): the Heuristic Scorer's risk label is derived from
the final score by the fixed thresholds in every case — score ≥ 80 gives
`LOW`, 60–79 `MEDIUM`, 40–59 `HIGH`, below 40 `VERY_HIGH` — with no
empty-mapping exception: the empty mapping keeps the default score 70.0 and
is classified `MEDIUM`. -/
theorem risk_from_thresholds (s : ℚ) :
    (80 ≤ s → determineRiskLevel s = "LOW") ∧
    (60 ≤ s ∧ s < 80 → determineRiskLevel s = "MEDIUM") ∧
    (40 ≤ s ∧ s < 60 → determineRiskLevel s = "HIGH") ∧
    (s < 40 → determineRiskLevel s = "VERY_HIGH") ∧
    determineRiskLevel (calculateHealthScore []) = "MEDIUM" := by
  refine ⟨fun h => ?_, fun h => ?_, fun h => ?_, fun h => ?_,
    by rw [score_empty_eq]; rfl⟩ <;>
    · unfold determineRiskLevel
      split_ifs <;> first | rfl | (exfalso; push_neg at *; linarith [h])

/-- Witness for `risk_from_thresholds` at concrete scores in each band. -/
theorem risk_from_thresholds_witness :
    determineRiskLevel 85 = "LOW" ∧ determineRiskLevel 70 = "MEDIUM" ∧
    determineRiskLevel 50 = "HIGH" ∧ determineRiskLevel 30 = "VERY_HIGH" :=
  ⟨(risk_from_thresholds 85).1 (by norm_num),
   (risk_from_thresholds 70).2.1 (by norm_num),
   (risk_from_thresholds 50).2.2.1 (by norm_num),
   (risk_from_thresholds 30).2.2.2.1 (by norm_num)⟩

/-- Claim C10: `set_ai_analysis` persists risk level `unknown` whenever the
given risk-level string is not exactly one of the four lower-case member
values of the `RiskLevel` enum — in particular for the upper-case labels of
`_determine_risk_level` — and also when no risk level is given at all
(`riskLevel = none` satisfies the hypothesis vacuously); the stored value is
always a member of the four-value enum by construction. -/
theorem set_ai_analysis_invalid_risk_unknown (d : Detection) (score : Option ℚ)
    (rl : Option String)
    (h : ∀ v, rl = some v →
      v ≠ "low" ∧ v ≠ "medium" ∧ v ≠ "high" ∧ v ≠ "unknown") :
    (setAiAnalysis d score rl).riskLevel = RiskLevel.unknown := by
  cases rl with
  | none => simp [setAiAnalysis, truthyStr]
  | some s =>
      rcases h s rfl with ⟨h1, h2, h3, h4⟩
      by_cases hs : s = ""
      · simp [setAiAnalysis, truthyStr, hs]
      · simp [setAiAnalysis, truthyStr, hs, riskLevelOfValue, h1, h2, h3, h4]

/-- Witness for `set_ai_analysis_invalid_risk_unknown`: the upper-case label
`"LOW"` produced by the score classifier is stored as `unknown`. -/
theorem set_ai_analysis_invalid_risk_unknown_witness :
    (setAiAnalysis (newDetection none) (some 85) (some "LOW")).riskLevel
      = RiskLevel.unknown :=
  set_ai_analysis_invalid_risk_unknown (newDetection none) (some 85)
    (some "LOW")
    (by intro v hv
        injection hv with hv
        subst hv
        refine ⟨by decide, by decide, by decide, by decide⟩)

/-- Claim C1 counterexample: an authenticated run with successful OCR whose
provider is unreachable, i.e. the configuration in which the Analysis
Adapter would report `success=False`.  In the source the adapter call never
gets that far: the unexpected keyword arguments raise `TypeError` at the
call site, so the resulting Detection is `failed` — not `completed` — and
no score is persisted, in particular not the Heuristic Scorer's output on
the (empty) parsed mapping. -/
theorem adapter_failure_real_run_fails :
    (analyzeNutrition (ProviderResponse.raised "API请求失败: connection error")
        []).success = false ∧
    adapterDownRun.detection.status = DetectionStatus.failed ∧
    adapterDownRun.detection.status ≠ DetectionStatus.completed ∧
    adapterDownRun.detection.nutritionScore ≠ some (calculateHealthScore []) ∧
    adapterDownRun.httpError
      = some (500, "检测过程中发生错误: " ++ aiCallTypeErrorMsg) := by
  have hs : adapterDownRun.detection.status = DetectionStatus.failed := rfl
  have hn : adapterDownRun.detection.nutritionScore = none := rfl
  refine ⟨rfl, hs, ?_, ?_, rfl⟩
  · rw [hs]; simp
  · rw [hn]; simp

/-- Claim C1 (amended): for every image ingestion that reaches the Analysis
Adapter call — in particular every one whose adapter would have reported
`success=False` — the call site's unexpected keyword arguments raise
`TypeError` before the adapter runs, so the Detection transitions to
`failed` (never `completed`) with the `TypeError` text as its error message,
no health score or risk level is persisted, and `HTTPException(500, ...)` is
raised; the Heuristic Scorer is never invoked as a fallback (the
`success`-handling at detection.py:339-350 is dead code). -/
theorem adapter_call_always_fails_no_fallback (u : Nat) (text : String)
    (tokens : List String) (conf : ℚ) (resp : ProviderResponse) :
    (processImageDetectionActual (some u) (OcrOutcome.ok text tokens conf)
        resp).detection.status = DetectionStatus.failed ∧
    (processImageDetectionActual (some u) (OcrOutcome.ok text tokens conf)
        resp).detection.errorMessage = some aiCallTypeErrorMsg ∧
    (processImageDetectionActual (some u) (OcrOutcome.ok text tokens conf)
        resp).detection.nutritionScore = none ∧
    (processImageDetectionActual (some u) (OcrOutcome.ok text tokens conf)
        resp).detection.riskLevel = RiskLevel.unknown ∧
    (processImageDetectionActual (some u) (OcrOutcome.ok text tokens conf)
        resp).httpError
      = some (500, "检测过程中发生错误: " ++ aiCallTypeErrorMsg) := by
  have hne : ¬ (aiCallTypeErrorMsg = "") := by decide
  simp [processImageDetectionActual, aiCallSiteOutcome, processImageDetection,
    newDetection, updateStatus, truthyStr, hne]

/-- Claim C2: for every Detection record the image pipeline actually
produces (its adapter call bound to the call-site behaviour), the health
score is set if and only if the status is `completed`, and the error message
is non-empty if and only if the status is `failed`.  Both invariants hold
because every realizable run ends `failed` with a non-empty stage-specific
message and no score: the `completed` transition at detection.py:348 sits
after the adapter call, which always raises, so both sides of invariant (a)
are false on every record. -/
theorem score_iff_completed_error_iff_failed (user : Option Nat)
    (ocr : OcrOutcome) (resp : ProviderResponse) :
    ((processImageDetectionActual user ocr resp).detection.nutritionScore.isSome
        = true ↔
      (processImageDetectionActual user ocr resp).detection.status
        = DetectionStatus.completed) ∧
    (truthyStr (processImageDetectionActual user ocr resp).detection.errorMessage
        = true ↔
      (processImageDetectionActual user ocr resp).detection.status
        = DetectionStatus.failed) := by
  cases ocr with
  | err e =>
      have hne : ¬ ("400: " ++ detailOcrFail = "") := by decide
      simp [processImageDetectionActual, aiCallSiteOutcome,
        processImageDetection, newDetection, updateStatus, truthyStr, hne]
  | ok text tokens conf =>
      cases user with
      | none =>
          have hne : ¬ (msgNoneAttr = "") := by decide
          simp [processImageDetectionActual, aiCallSiteOutcome,
            processImageDetection, newDetection, updateStatus, truthyStr, hne]
      | some u =>
          have hne : ¬ (aiCallTypeErrorMsg = "") := by decide
          simp [processImageDetectionActual, aiCallSiteOutcome,
            processImageDetection, newDetection, updateStatus, truthyStr, hne]

/-- Claim C3 counterexample: when OCR reports failure, the controller does
not return the failed record — it raises `HTTPException(400, ...)` to its
caller. -/
theorem ocr_failure_raises_counterexample :
    ocrFailRun.httpError = some (400, detailOcrFail) ∧
    ocrFailRun.httpError ≠ none := by
  have h : ocrFailRun.httpError = some (400, detailOcrFail) := rfl
  refine ⟨h, ?_⟩
  rw [h]
  simp

/-- Claim C3 (amended): every run of the image pipeline leaves the persisted
Detection in a terminal `completed` or `failed` state, but the controller
returns the record to its caller only when the run completed; on every
failure path it instead raises an `HTTPException` (the failed record is
persisted, not returned). -/
theorem pipeline_terminal_state_raises_on_failure (user : Option Nat)
    (ocr : OcrOutcome) (aiCall : AiCallOutcome) :
    ((processImageDetection user ocr aiCall).detection.status
        = DetectionStatus.completed ∨
     (processImageDetection user ocr aiCall).detection.status
        = DetectionStatus.failed) ∧
    ((processImageDetection user ocr aiCall).httpError = none ↔
     (processImageDetection user ocr aiCall).detection.status
        = DetectionStatus.completed) := by
  cases ocr with
  | err e =>
      have hne : ¬ ("400: " ++ detailOcrFail = "") := by decide
      simp [processImageDetection, newDetection, updateStatus, truthyStr, hne]
  | ok text tokens conf =>
      cases user with
      | none =>
          have hne : ¬ (msgNoneAttr = "") := by decide
          simp [processImageDetection, newDetection, updateStatus, truthyStr,
            hne]
      | some u =>
          cases aiCall with
          | raised m =>
              by_cases hm : m = "" <;>
                simp [processImageDetection, newDetection, updateStatus,
                  truthyStr, hm]
          | returned r =>
              by_cases hr : r.success <;>
                simp [processImageDetection, newDetection, updateStatus,
                  setAiAnalysis, truthyStr, hr]

/-- Claim C9 (code evaluated at the failing input): an anonymous request is
accepted and its record is created with a null owner, but after successful
OCR the controller crashes evaluating `current_user.age`, marks the record
`failed` with the `AttributeError` text and raises HTTP 500 — it never
reaches the analysis call, while the identical authenticated request does
(`aiCalledWith` differs). -/
theorem anonymous_ingestion_crashes :
    anonymousRun.detection.userId = none ∧
    anonymousRun.detection.status = DetectionStatus.failed ∧
    anonymousRun.detection.errorMessage = some msgNoneAttr ∧
    anonymousRun.httpError
      = some (500, "检测过程中发生错误: " ++ msgNoneAttr) ∧
    anonymousRun.aiCalledWith = none ∧
    authenticatedRun.aiCalledWith = some [] :=
  ⟨rfl, rfl, rfl, rfl, rfl, rfl⟩

/-- Claim C4 (code evaluated at the failing input): on a successful scan
whose recognized text names sodium and fat, the controller passes the empty
mapping to the analysis call (it reads the absent `nutrition_data` key of
the OCR result), even though the Nutrient Parser applied to that same OCR
result extracts both nutrients — the parser stage is skipped. -/
theorem parser_output_not_passed_to_adapter :
    sodiumFatRun.aiCalledWith = some [] ∧
    extractNutritionInfo sodiumFatOcr
      = some [("fat", NutrientValue.entry 25 "g" "脂肪"),
              ("sodium", NutrientValue.entry 800 "mg" "钠")] ∧
    sodiumFatRun.aiCalledWith ≠ extractNutritionInfo sodiumFatOcr := by
  have h1 : sodiumFatRun.aiCalledWith = some [] := rfl
  have h2 : extractNutritionInfo sodiumFatOcr
      = some [("fat", NutrientValue.entry 25 "g" "脂肪"),
              ("sodium", NutrientValue.entry 800 "mg" "钠")] := rfl
  refine ⟨h1, h2, ?_⟩
  rw [h1, h2]
  simp

/-- A keyword that occurs nowhere in the text never matches. -/
theorem findFirstMatch_of_not_contains (kw : List Char) :
    ∀ t : List Char, containsSub kw t = false → findFirstMatch kw t = none := by
  intro t
  induction t with
  | nil => intro _; rfl
  | cons c rest ih =>
      intro h
      simp only [containsSub, Bool.or_eq_false_iff] at h
      simp [findFirstMatch, tryMatch, h.1, ih h.2]

/-- Scanning for a single-character keyword skips any prefix free of that
character. -/
theorem findFirstMatch_singleton_append (k : Char) (r : List Char) :
    ∀ a : List Char, k ∉ a →
      findFirstMatch [k] (a ++ r) = findFirstMatch [k] r := by
  intro a
  induction a with
  | nil => intro _; rfl
  | cons c a' ih =>
      intro ha
      have hk : ¬ (k = c) := fun hkc => ha (hkc ▸ List.mem_cons_self c a')
      have hs : isStart [k] (c :: (a' ++ r)) = false := by
        simp [isStart, hk]
      rw [List.cons_append, findFirstMatch]
      simp [tryMatch, hs, ih (fun hm => ha (List.mem_cons_of_mem c hm))]

/-- Evaluation of the pattern tail on `: 800mg` followed by any context not
starting with an ASCII letter. -/
theorem matchAfter_sodium_tail (b : List Char) (hb : headNotLetter b = true) :
    matchAfter (':' :: ' ' :: '8' :: '0' :: '0' :: 'm' :: 'g' :: b)
      = some (800, "mg") := by
  have htw : List.takeWhile isAsciiLetterChar b = [] := by
    cases b with
    | nil => rfl
    | cons c bs =>
        have hc : isAsciiLetterChar c = false := by
          simpa [headNotLetter] using hb
        simp [List.takeWhile_cons, hc]
  have e1 : isColonChar ':' = true := rfl
  have e2 : isColonChar ' ' = false := rfl
  have e3 : isSpaceChar ' ' = true := rfl
  have e4 : isSpaceChar '8' = false := rfl
  have e5 : isDigitChar '8' = true := rfl
  have e6 : isDigitChar '0' = true := rfl
  have e7 : isDigitChar 'm' = false := rfl
  have e8 : isSpaceChar 'm' = false := rfl
  have e9 : isAsciiLetterChar 'm' = true := rfl
  have e10 : isAsciiLetterChar 'g' = true := rfl
  have e11 : ¬ ('m' = '.') := by decide
  simp only [matchAfter, List.dropWhile_cons, List.takeWhile_cons, e1, e2, e3,
    e4, e5, e6, e7, e8, e9, e10, htw, if_true, if_false, Bool.false_eq_true,
    ite_false, ite_true]
  norm_num [e11, decimalToRat, digitsToNat]
  refine ⟨by simp, ?_, ?_⟩
  · have t8 : '8'.toNat - 48 = 8 := rfl
    have t0 : '0'.toNat - 48 = 0 := rfl
    norm_num [t8, t0]
  · have hdw : List.dropWhile isSpaceChar ('m' :: 'g' :: b) = 'm' :: 'g' :: b := by
      simp [List.dropWhile_cons, e8]
    rw [hdw]
    simp only [List.takeWhile_cons, e9, e10, htw, if_true]

/-- The first sodium-keyword match in `钠: 800mg ⧺ b` captures value 800
and unit `mg`. -/
theorem findFirstMatch_sodium (b : List Char) (hb : headNotLetter b = true) :
    findFirstMatch ['钠'] (sodiumMention ++ b) = some (800, "mg") := by
  have hs : isStart ['钠'] (sodiumMention ++ b) = true := by
    simp [sodiumMention, isStart]
  rw [show sodiumMention ++ b
        = '钠' :: (':' :: ' ' :: '8' :: '0' :: '0' :: 'm' :: 'g' :: b) from rfl]
  rw [findFirstMatch, tryMatch]
  rw [show sodiumMention ++ b
        = '钠' :: (':' :: ' ' :: '8' :: '0' :: '0' :: 'm' :: 'g' :: b) from
      rfl] at hs
  simp only [hs, if_true, List.length_cons, List.length_nil, List.drop_succ_cons,
    List.drop_zero]
  rw [matchAfter_sodium_tail b hb]

/-- Claim C8: for every recognized text of the form `a ⧺ 钠: 800mg ⧺ b`
in which the single `钠` of the mention is the only occurrence of any
keyword of the parser's synonym table before or at the mention (`钠` free in
`a`, every other synonym absent from the whole text) and whose continuation
`b` does not begin with an ASCII letter (so the mention's `mg` is a complete
unit token), the Nutrient Parser extracts exactly one nutrient: sodium, with
value 800.0 and unit `mg`. -/
theorem parser_extracts_sodium_only (a b : List Char) (ha : '钠' ∉ a)
    (hb : headNotLetter b = true)
    (hother : ∀ kw ∈ allKeywords, kw ≠ ['钠'] →
      containsSub kw (a ++ (sodiumMention ++ b)) = false) :
    extractNutritionCore (a ++ (sodiumMention ++ b))
      = [("sodium", NutrientValue.entry 800 "mg" "钠")] := by
  have hNa : findFirstMatch (String.toList "钠") (a ++ (sodiumMention ++ b))
      = some (800, "mg") := by
    rw [show String.toList "钠" = ['钠'] from rfl,
      findFirstMatch_singleton_append '钠' (sodiumMention ++ b) a ha,
      findFirstMatch_sodium b hb]
  have h01 : findFirstMatch (String.toList "能量") (a ++ (sodiumMention ++ b))
      = none :=
    findFirstMatch_of_not_contains _ _ (hother _ (by decide) (by decide))
  have h02 : findFirstMatch (String.toList "热量") (a ++ (sodiumMention ++ b))
      = none :=
    findFirstMatch_of_not_contains _ _ (hother _ (by decide) (by decide))
  have h03 : findFirstMatch (String.toList "卡路里") (a ++ (sodiumMention ++ b))
      = none :=
    findFirstMatch_of_not_contains _ _ (hother _ (by decide) (by decide))
  have h04 : findFirstMatch (String.toList "千焦") (a ++ (sodiumMention ++ b))
      = none :=
    findFirstMatch_of_not_contains _ _ (hother _ (by decide) (by decide))
  have h05 : findFirstMatch (String.toList "kJ") (a ++ (sodiumMention ++ b))
      = none :=
    findFirstMatch_of_not_contains _ _ (hother _ (by decide) (by decide))
  have h06 : findFirstMatch (String.toList "kcal") (a ++ (sodiumMention ++ b))
      = none :=
    findFirstMatch_of_not_contains _ _ (hother _ (by decide) (by decide))
  have h07 : findFirstMatch (String.toList "蛋白质") (a ++ (sodiumMention ++ b))
      = none :=
    findFirstMatch_of_not_contains _ _ (hother _ (by decide) (by decide))
  have h08 : findFirstMatch (String.toList "蛋白") (a ++ (sodiumMention ++ b))
      = none :=
    findFirstMatch_of_not_contains _ _ (hother _ (by decide) (by decide))
  have h09 : findFirstMatch (String.toList "脂肪") (a ++ (sodiumMention ++ b))
      = none :=
    findFirstMatch_of_not_contains _ _ (hother _ (by decide) (by decide))
  have h10 : findFirstMatch (String.toList "总脂肪") (a ++ (sodiumMention ++ b))
      = none :=
    findFirstMatch_of_not_contains _ _ (hother _ (by decide) (by decide))
  have h11 : findFirstMatch (String.toList "碳水化合物")
      (a ++ (sodiumMention ++ b)) = none :=
    findFirstMatch_of_not_contains _ _ (hother _ (by decide) (by decide))
  have h12 : findFirstMatch (String.toList "糖类") (a ++ (sodiumMention ++ b))
      = none :=
    findFirstMatch_of_not_contains _ _ (hother _ (by decide) (by decide))
  have h13 : findFirstMatch (String.toList "糖") (a ++ (sodiumMention ++ b))
      = none :=
    findFirstMatch_of_not_contains _ _ (hother _ (by decide) (by decide))
  have h14 : findFirstMatch (String.toList "添加糖") (a ++ (sodiumMention ++ b))
      = none :=
    findFirstMatch_of_not_contains _ _ (hother _ (by decide) (by decide))
  simp only [extractNutritionCore, nutritionKeywordTable, List.foldl_cons,
    List.foldl_nil, firstKeywordHit, h01, h02, h03, h04, h05, h06, h07, h08,
    h09, h10, h11, h12, h13, h14, hNa]
  rfl

/-- Witness for `parser_extracts_sodium_only` on the bare mention
`钠: 800mg`. -/
theorem parser_extracts_sodium_only_witness :
    extractNutritionCore ([] ++ (sodiumMention ++ []))
      = [("sodium", NutrientValue.entry 800 "mg" "钠")] :=
  parser_extracts_sodium_only [] [] (by decide) (by decide) (by decide)

end MiniNutriScan
